import Mathlib

/-!
Verification of the request-orchestration core of a Slack AI bot.

The definitions below are a shallow embedding of the Python sources:

* `src/src/workflow/workflow_engine.py` — intent parsing and fallback
  (`analyze_user_intent`, `parse_intent_response`, `create_fallback_intent`),
  the dependency-aware scheduler (`sort_tasks_by_dependency`) and the
  sequential execution loop (`execute_tasks`);
* `src/src/workflow/task_executor.py` — the Korean-script heuristic
  (`_contains_korean`), the image-generation call order, the Gemini
  image-generation path with its DALL-E fallback
  (`_execute_gemini_image_generation`) and the thread-summary task
  (`_execute_thread_summary`);
* `src/src/workflow/slack_utils.py` / `src/src/handlers/message_handler.py`
  — the buffered streaming loop (`reply_text_stream` / `reply_text`).

Python strings are embedded as `List Char`; Python dict/JSON values as the
`Json` inductive (objects as association lists, `json.loads` keeps the last
occurrence of a duplicate key); external calls (OpenAI, Gemini, Slack,
HTTP) are passed in as explicit outcome parameters so that every definition
is a total, executable Lean function.
-/

namespace Workflow

/-- Python `needle == hay[i:i+len(needle)]` at position 0, i.e. `hay`
starts with `needle` (used to embed the `in` substring operator). -/
def startsWithCL : List Char → List Char → Bool
  | _, [] => true
  | [], _ :: _ => false
  | h :: hs, n :: ns => h == n && startsWithCL hs ns

/-- Python substring containment `needle in hay` for strings. -/
def pySubstr (hay needle : List Char) : Bool :=
  match hay with
  | [] => needle.isEmpty
  | _ :: hs => startsWithCL hay needle || pySubstr hs needle

/-- Python `str.strip()` (whitespace trimming at both ends). -/
def pyStrip (s : List Char) : List Char :=
  ((s.dropWhile Char.isWhitespace).reverse.dropWhile Char.isWhitespace).reverse

/-! ### Task scheduler (`WorkflowEngine.sort_tasks_by_dependency`) -/

/-- A task record as built by `WorkflowEngine.create_task_list`: the fields
that the scheduler consults (`id`, `priority`, `dependencies`).  The
remaining fields (`type`, `description`, `input`, status bookkeeping) do
not influence the sort and are carried by the executor model instead. -/
structure Task where
  id : String
  priority : Int
  dependencies : List String
deriving DecidableEq, Repr

/-- The sort key used by `sorted(..., key=lambda x: x['priority'])`. -/
def prioLE (a b : Task) : Prop := a.priority ≤ b.priority

instance : DecidableRel prioLE := fun a b =>
  inferInstanceAs (Decidable (a.priority ≤ b.priority))

instance : IsTotal Task prioLE := ⟨fun a b => Int.le_total a.priority b.priority⟩

instance : IsTrans Task prioLE := ⟨fun _ _ _ h h2 => le_trans h h2⟩

/-- `dependencies_met`: every dependency id already occurs among the ids of
the tasks scheduled so far (`dep_id in [t['id'] for t in sorted_tasks]`). -/
def depsMet (scheduled : List Task) (t : Task) : Bool :=
  t.dependencies.all (fun d => scheduled.any (fun s => s.id == d))

/-- The `ready_tasks` computation of one loop iteration: the tasks of
`rem` whose dependencies are met; if none qualify, the first task of
`rem` stably sorted by priority (`sorted(remaining_tasks, ...)[:1]`). -/
def chooseReady (scheduled rem : List Task) : List Task :=
  let ready := rem.filter (depsMet scheduled)
  if ready = [] then (List.insertionSort prioLE rem).take 1 else ready

/-- The `while remaining_tasks:` loop.  Each iteration appends the chosen
ready tasks, sorted by ascending priority, to the schedule and removes
them (first matching occurrence each, as `list.remove`) from the
remainder.  `fuel` bounds the number of iterations; the termination
theorems below show `tasks.length` iterations always suffice, so the
fueled function agrees with the unbounded Python loop. -/
def sortLoop : Nat → List Task → List Task → List Task × List Task
  | 0, s, rem => (s, rem)
  | fuel + 1, s, rem =>
    if rem = [] then (s, rem)
    else
      let rs := List.insertionSort prioLE (chooseReady s rem)
      sortLoop fuel (s ++ rs) (rem.diff rs)

/-- `WorkflowEngine.sort_tasks_by_dependency`, run with enough fuel for
`2 × |tasks|` loop iterations. -/
def sort_tasks_by_dependency (tasks : List Task) : List Task :=
  (sortLoop (2 * tasks.length) [] tasks).1

/-! ### Execution loop (`WorkflowEngine.execute_tasks`) -/

/-- Task lifecycle states (`'pending' | 'running' | 'completed' | 'failed'`). -/
inductive TaskStatus
  | pending
  | running
  | completed
  | failed
deriving DecidableEq, Repr

/-- A normalized task result dict (`{'type': 'text'|'image'|'analysis', ...}`). -/
inductive TaskResult
  | text (content : List Char)
  | image (prompt : List Char) (filename : List Char)
  | analysis (content : List Char)
deriving DecidableEq, Repr

/-- A task record after the execution loop touched it: the final value of
the mutated `status` / `result` / `error` fields. -/
structure ProcessedTask (α : Type) where
  task : α
  status : TaskStatus
  result : Option TaskResult
  error : Option String
deriving DecidableEq, Repr

/-- One iteration body of `execute_tasks`: run the task inside
`try/except`; on success mark it `completed` with its result, on an
exception mark it `failed` and record `str(e)`. -/
def processOne {α : Type} (exec : α → Except String TaskResult) (t : α) :
    ProcessedTask α :=
  match exec t with
  | .ok r => ⟨t, .completed, some r, none⟩
  | .error e => ⟨t, .failed, none, some e⟩

/-- `WorkflowEngine.execute_tasks`: the sequential `for` loop over the
scheduled task list.  The per-task `try/except` is inside the loop body,
so the loop itself continues past every failure. -/
def execute_tasks {α : Type} (exec : α → Except String TaskResult) :
    List α → List (ProcessedTask α)
  | [] => []
  | t :: ts => processOne exec t :: execute_tasks exec ts

/-! ### Intent parsing and fallback (`WorkflowEngine.analyze_user_intent`) -/

/-- JSON values as produced by `json.loads`; objects are association lists
(`json.loads` keeps the last occurrence of a duplicate key, which
`pyDictLookup` reproduces). -/
inductive Json
  | null
  | bool (b : Bool)
  | num (n : Int)
  | str (s : String)
  | arr (l : List Json)
  | obj (kvs : List (String × Json))

/-- Python dict lookup `d[f]` on the association-list embedding (last
binding of a duplicate key wins, as in `json.loads`). -/
def pyDictLookup (kvs : List (String × Json)) (f : String) : Option Json :=
  (kvs.reverse.find? (fun kv => kv.1 == f)).map (fun kv => kv.2)

/-- Python `j == f` for a JSON value against a string literal (used by the
`in` operator on lists: only a JSON string can equal a Python string). -/
def jsonEqStr (j : Json) (s : String) : Bool :=
  match j with
  | .str t => t == s
  | _ => false

/-- Python `f in j`: key membership for dicts, element equality for lists,
substring for strings; `none` models the `TypeError` raised on numbers,
booleans and `None` (which the caller turns into the fallback intent). -/
def pyFieldIn (f : String) : Json → Option Bool
  | .obj kvs => some (kvs.any (fun kv => kv.1 == f))
  | .arr l => some (l.any (fun e => jsonEqStr e f))
  | .str s => some (pySubstr s.data f.data)
  | _ => none

/-- Python `for task in x`: lists yield their elements, strings their
characters, dicts their keys; `none` models the `TypeError` on other
values. -/
def iterTasks : Json → Option (List Json)
  | .arr l => some l
  | .str s => some (s.data.map (fun c => Json.str (String.mk [c])))
  | .obj kvs => some (kvs.map (fun kv => Json.str kv.1))
  | _ => none

/-- The per-task field check of `parse_intent_response`: `task_id`,
`task_type` and `description` must all be `in` the task value.  A
`TypeError` (`none`) makes the whole parse fail, which routes to the
fallback exactly as a `ValueError` does. -/
def validTaskFields (t : Json) : Bool :=
  ((pyFieldIn "task_id" t).getD false) &&
  ((pyFieldIn "task_type" t).getD false) &&
  ((pyFieldIn "description" t).getD false)

/-- Whether `parse_intent_response` accepts a decoded JSON value.  For a
non-dict top-level value every code path raises (`ValueError` from the
membership checks or `TypeError` from `result['required_tasks']`), and
every such exception is converted to the fallback intent by
`analyze_user_intent`, so those values are simply invalid here. -/
def parse_intent_response_valid (j : Json) : Bool :=
  match j with
  | .obj kvs =>
    ((pyFieldIn "user_intent" j).getD false) &&
    ((pyFieldIn "required_tasks" j).getD false) &&
    (match pyDictLookup kvs "required_tasks" with
     | some tv =>
       match iterTasks tv with
       | some ts => ts.all validTaskFields
       | none => false
     | none => false)
  | _ => false

/-- The image-generation keywords of the fallback classifier
(`["그려", "그림", "이미지", "생성"]`). -/
def imageKeywords : List (List Char) :=
  ["그려".data, "그림".data, "이미지".data, "생성".data]

/-- `any(keyword in user_message for keyword in [...])`. -/
def wantsImageGen (msg : List Char) : Bool :=
  imageKeywords.any (fun k => pySubstr msg k)

/-- `WorkflowEngine.create_fallback_intent`: the keyword-based fallback
classifier.  An uploaded image is checked first; only otherwise are the
image-generation keywords consulted; the default is text generation.
The function is a pure literal — it performs no external calls. -/
def create_fallback_intent (hasImage : Bool) (msg : List Char) : Json :=
  if hasImage then
    Json.obj
      [("user_intent", .str "이미지 분석 요청"),
       ("required_tasks", .arr
         [Json.obj
           [("task_id", .str "fallback_image_analysis"),
            ("task_type", .str "image_analysis"),
            ("description", .str "업로드된 이미지 분석"),
            ("input_data", .str (String.mk msg)),
            ("priority", .num 1),
            ("depends_on", .arr [])]]),
       ("execution_strategy", .str "sequential"),
       ("estimated_time", .str "10")]
  else if wantsImageGen msg then
    Json.obj
      [("user_intent", .str "이미지 생성 요청"),
       ("required_tasks", .arr
         [Json.obj
           [("task_id", .str "fallback_image_gen"),
            ("task_type", .str "image_generation"),
            ("description", .str "이미지 생성"),
            ("input_data", .str (String.mk msg)),
            ("priority", .num 1),
            ("depends_on", .arr [])]]),
       ("execution_strategy", .str "sequential"),
       ("estimated_time", .str "15")]
  else
    Json.obj
      [("user_intent", .str "텍스트 응답 요청"),
       ("required_tasks", .arr
         [Json.obj
           [("task_id", .str "fallback_text"),
            ("task_type", .str "text_generation"),
            ("description", .str "텍스트 응답 생성"),
            ("input_data", .str (String.mk msg)),
            ("priority", .num 1),
            ("depends_on", .arr [])]]),
       ("execution_strategy", .str "sequential"),
       ("estimated_time", .str "8")]

/-- Outcome of the classification backend call as seen by
`analyze_user_intent`: the call raised, the response content was not
decodable JSON (after code-fence stripping), or it decoded to a value. -/
inductive ClassifierOutcome
  | failure (msg : String)
  | unparsable
  | parsed (j : Json)

/-- `WorkflowEngine.analyze_user_intent`: returns the parsed intent when
`parse_intent_response` accepts it, and otherwise — on a backend
exception, a JSON decode error, or a validation error — the fallback
intent.  The function is total: classification never raises. -/
def analyze_user_intent (o : ClassifierOutcome) (hasImage : Bool)
    (msg : List Char) : Json :=
  match o with
  | .failure _ => create_fallback_intent hasImage msg
  | .unparsable => create_fallback_intent hasImage msg
  | .parsed j =>
    if parse_intent_response_valid j then j else create_fallback_intent hasImage msg

/-- The `required_tasks` list of an intent value (empty for shapes the
rest of the pipeline cannot iterate). -/
def intentTasks (j : Json) : List Json :=
  match j with
  | .obj kvs =>
    match pyDictLookup kvs "required_tasks" with
    | some (.arr l) => l
    | _ => []
  | _ => []

/-- The `task_type` field of a task value. -/
def taskTypeOf (t : Json) : Option Json :=
  match t with
  | .obj kvs => pyDictLookup kvs "task_type"
  | _ => none

/-! ### Korean-script heuristic (`TaskExecutor._contains_korean`) and the
image-generation call order (`TaskExecutor._execute_image_generation`) -/

/-- One character of the Hangul-syllables block (`'가' <= char <= '힣'`). -/
def isHangul (c : Char) : Bool := decide ('가' ≤ c) && decide (c ≤ '힣')

/-- `sum(1 for char in text if '가' <= char <= '힣')`. -/
def koreanCount (s : List Char) : Nat := (s.filter isHangul).length

/-- `TaskExecutor._contains_korean`: empty text is not Korean; otherwise
the test is `korean_chars > len(text) * 0.2`, i.e. the Hangul count must
strictly exceed one fifth of the length (embedded exactly, over the
integers, as `5 * korean_chars > len`). -/
def contains_korean (s : List Char) : Bool :=
  if s = [] then false else decide (5 * koreanCount s > s.length)

/-- The backend calls a task may issue, in order. -/
inductive BackendCall
  | textGen
  | imageGen
deriving DecidableEq, Repr

/-- The backend calls issued by `_execute_image_generation` up to and
including the image-backend call: one preliminary text-generation
(translation) call exactly when `_contains_korean` holds of the task
input, then the DALL-E call.  (The subsequent asset download and Slack
upload are not backend-client calls and are outside this claim.) -/
def imageGenPrelude (input : List Char) : List BackendCall :=
  (if contains_korean input then [BackendCall.textGen] else []) ++
    [BackendCall.imageGen]

/-! ### Gemini image generation with DALL-E fallback
(`TaskExecutor._execute_gemini_image_generation`) -/

/-- A returned image object; `imageBytes = none` models a missing
`image_bytes` attribute, `some []` an empty (falsy) byte string. -/
structure GemImageData where
  imageBytes : Option (List Nat)
deriving DecidableEq, Repr

/-- The response dict of `gemini_api.generate_image`, with the three image
list fields the executor inspects (`.get(..., [])` defaults). -/
structure GemResponse where
  generated_images : List GemImageData
  images : List GemImageData
  candidates : List GemImageData
deriving DecidableEq, Repr

/-- The image-extraction preference order: `generated_images` first, then
`images`, then `candidates`. -/
def pickImageData (r : GemResponse) : Option GemImageData :=
  if r.generated_images.length > 0 then r.generated_images.head?
  else if r.images.length > 0 then r.images.head?
  else if r.candidates.length > 0 then r.candidates.head?
  else none

/-- `settings.GEMINI_IMAGE_MODEL` default. -/
def GEMINI_IMAGE_MODEL : String := "imagen-3.0-generate-002"

/-- `f"gemini_\x7bsettings.GEMINI_IMAGE_MODEL\x7d.png"`. -/
def geminiFilename : List Char := ("gemini_" ++ GEMINI_IMAGE_MODEL ++ ".png").data

/-- `"생성된 이미지가 없습니다"` — raised when no image list is populated. -/
def err_no_images : List Char := "생성된 이미지가 없습니다".data

/-- `"이미지 바이트 데이터를 찾을 수 없습니다"` — raised when the image
object has no usable `image_bytes`. -/
def err_no_bytes : List Char := "이미지 바이트 데이터를 찾을 수 없습니다".data

/-- The feature-unavailable signature keywords tested against the
lower-cased error message. -/
def fallbackKeywords : List (List Char) :=
  ["allowlist".data, "not enabled".data, "not supported".data,
   "생성된 이미지가 없습니다".data, "no images".data, "empty response".data,
   "403".data, "unauthorized".data, "invalid_argument".data,
   "이미지 바이트 데이터를 찾을 수 없습니다".data]

/-- `any(keyword in str(e).lower() for keyword in [...])`.  `str.lower`
is embedded as ASCII lower-casing (`Char.toLower`); the keywords are
already lower-case and Hangul has no case. -/
def matchesFallbackSignature (e : List Char) : Bool :=
  fallbackKeywords.any (fun k => pySubstr (e.map Char.toLower) k)

/-- The textual result produced when both Gemini and the DALL-E fallback
fail. -/
def dalleFailText (e de : List Char) : List Char :=
  "❌ 이미지 생성에 실패했습니다.\n• Gemini: ".data ++ e ++
    "\n• DALL-E: ".data ++ de

/-- `TaskExecutor._execute_gemini_image_generation`.  `gem` is the outcome
of the `gemini_api.generate_image` call, `upload` the Slack upload of the
extracted bytes, and `dalle` the outcome of `_execute_image_generation`
on the same task (its revised prompt and filename on success).  The
returned `Nat` counts the DALL-E fallback invocations. -/
def execute_gemini_image_generation (prompt : List Char)
    (gem : Except (List Char) GemResponse)
    (upload : List Nat → Except (List Char) Unit)
    (dalle : Except (List Char) (List Char × List Char)) :
    TaskResult × Nat :=
  let attempt : Except (List Char) TaskResult :=
    match gem with
    | .error e => .error e
    | .ok resp =>
      match pickImageData resp with
      | none => .error err_no_images
      | some d =>
        match d.imageBytes with
        | some bytes =>
          if bytes.length > 0 then
            match upload bytes with
            | .ok _ => .ok (.image prompt geminiFilename)
            | .error ue => .error ue
          else .error err_no_bytes
        | none => .error err_no_bytes
  match attempt with
  | .ok r => (r, 0)
  | .error e =>
    if matchesFallbackSignature e then
      match dalle with
      | .ok (rp, fn) => (.image rp fn, 1)
      | .error de => (.text (dalleFailText e de), 1)
    else
      match dalle with
      | .ok (rp, fn) => (.image rp fn, 1)
      | .error de => (.text (dalleFailText e de), 1)

/-! ### Thread summary (`TaskExecutor._execute_thread_summary`) -/

/-- A Slack thread message as consumed by the summary task; `userName` is
the already-resolved display name (`slack_api.get_user_display_name`,
with its `"AI Bot"` / `"User"` substitutions folded in by `isBot`). -/
structure SlackMsg where
  isBot : Bool
  userName : List Char
  text : List Char
deriving DecidableEq, Repr

/-- Reply when the request is not inside a thread. -/
def msg_no_thread : List Char :=
  "현재 스레드가 아니므로 요약할 내용이 없습니다. 스레드 내에서 요약을 요청해주세요.".data

/-- Reply when the thread has no messages. -/
def msg_empty_thread : List Char := "요약할 스레드 메시지가 없습니다.".data

/-- `TaskExecutor._format_thread_messages`: number the messages, name bots
`"AI Bot"`, skip messages whose stripped text is empty, and join with
newlines. -/
def format_thread_messages (msgs : List SlackMsg) : List Char :=
  List.intercalate "\n".data
    (msgs.enum.filterMap (fun im =>
      let name := if im.2.isBot then "AI Bot".data else im.2.userName
      let text := pyStrip im.2.text
      if text = [] then none
      else some ("[".data ++ (toString (im.1 + 1)).data ++ "] ".data ++
        name ++ ": ".data ++ text)))

/-- The summarization prompt built around the formatted conversation. -/
def summaryPrompt (conv : List Char) : List Char :=
  "\n다음은 Slack 스레드 대화입니다. 이 대화를 간결하고 명확하게 요약해주세요:\n\n".data ++
  conv ++
  "\n\n요약 요구사항:\n1. 주요 주제와 핵심 내용을 포함\n2. 중요한 결정사항이나 결론이 있다면 강조\n3. 참여자들의 주요 의견이나 관점 반영\n4. 3-5개 문단으로 간결하게 정리\n5. 한국어로 응답\n\n요약:\n".data

/-- The header prefixed to a produced summary:
`📋 **스레드 요약** (n개 메시지)` and a blank line. -/
def summaryHeader (n : Nat) : List Char :=
  "📋 **스레드 요약** (".data ++ (toString n).data ++ "개 메시지)\n\n".data

/-- `TaskExecutor._execute_thread_summary`.  `threadTs` is the thread
timestamp from the Slack context, `msgs` what
`slack_api.get_thread_messages` returned, and `summarize` the
text-generation backend.  The returned `Nat` counts the generative-AI
backend calls issued. -/
def execute_thread_summary (threadTs : Option (List Char))
    (msgs : List SlackMsg) (summarize : List Char → List Char) :
    TaskResult × Nat :=
  match threadTs with
  | none => (.text msg_no_thread, 0)
  | some _ =>
    if msgs.length = 0 then (.text msg_empty_thread, 0)
    else
      let conv := format_thread_messages msgs
      let summary := summarize (summaryPrompt conv)
      (.text (summaryHeader msgs.length ++ summary), 1)

/-! ### Streamed text delivery (`SlackMessageUtils.reply_text_stream`,
identically `MessageHandler.reply_text`) -/

/-- The loop state of the streaming reply: the chunk counter, the
accumulated message, the unflushed character count and the sequence of
in-progress `chat_update` payloads issued so far. -/
structure StreamState where
  counter : Nat
  message : List Char
  bufferSize : Nat
  updates : List (List Char)
deriving DecidableEq, Repr

/-- `update_threshold = 800  # 약 800자마다 업데이트`. -/
def update_threshold : Nat := 800

/-- One iteration of the `for part in stream` loop: append the delta to
the message and the buffer, then flush (an in-progress `chat_update`)
when the buffer reached the threshold **or** the chunk counter is a
positive multiple of 24.  `chatUpd` is the message value `chat_update`
returns (the identity unless it split an oversized message). -/
def streamStep (chatUpd : List Char → List Char) (st : StreamState)
    (reply : List Char) : StreamState :=
  let message := st.message ++ reply
  let bufferSize := st.bufferSize + reply.length
  if bufferSize ≥ update_threshold ∨ (st.counter > 0 ∧ st.counter % 24 = 0) then
    { counter := st.counter + 1, message := chatUpd message, bufferSize := 0,
      updates := st.updates ++ [message] }
  else
    { counter := st.counter + 1, message := message, bufferSize := bufferSize,
      updates := st.updates }

/-- `reply_text_stream`: fold the stream chunks through the loop, then
issue the final `chat_update` with the accumulated message. -/
def reply_text_stream (chatUpd : List Char → List Char)
    (chunks : List (List Char)) : StreamState :=
  let st := chunks.foldl (streamStep chatUpd) ⟨0, [], 0, []⟩
  { st with updates := st.updates ++ [st.message] }

/-- The flush decisions of the streaming loop as a function of the chunk
lengths alone: `flushFlags lens counter buffer` marks, for each incoming
chunk, whether an in-progress update is issued at that chunk. -/
def flushFlags : List Nat → Nat → Nat → List Bool
  | [], _, _ => []
  | n :: rest, counter, buffer =>
    let b := buffer + n
    let f : Bool :=
      decide (b ≥ update_threshold) ||
        (decide (counter > 0) && decide (counter % 24 = 0))
    f :: flushFlags rest (counter + 1) (if f then 0 else b)

/-! ### Concrete sample inputs used by witnesses and counterexamples -/

/-- A sample per-task executor: even tasks succeed, odd tasks raise. -/
def sampleExec : Nat → Except String TaskResult := fun n =>
  if n % 2 = 0 then .ok (.text "ok".data) else .error "boom"

/-- A decoded classifier response that is a valid JSON object with the
required top-level fields but an *empty* `required_tasks` list. -/
def emptyTasksIntent : Json :=
  Json.obj [("user_intent", .str "사용자 의도 요약"), ("required_tasks", .arr [])]

/-! ## Theorems -/

/-- Helper: the chosen ready set of a loop iteration is nonempty whenever
tasks remain. -/
theorem chooseReady_ne_nil (s : List Task) {rem : List Task} (h : rem ≠ []) :
    chooseReady s rem ≠ [] := by
  unfold chooseReady
  by_cases hf : rem.filter (depsMet s) = []
  · simp only [hf, if_pos]
    have hs : List.insertionSort prioLE rem ≠ [] := by
      intro h0
      have hp := List.perm_insertionSort prioLE rem
      rw [h0] at hp
      exact h hp.symm.eq_nil
    obtain ⟨a, l', hl⟩ := List.exists_cons_of_ne_nil hs
    rw [hl]
    simp
  · simp only [hf, if_neg]
    exact hf

/-- Helper: the chosen ready set is a sub-permutation of the remaining
tasks (each chosen task consumes one distinct remaining occurrence). -/
theorem chooseReady_subperm (s rem : List Task) :
    List.Subperm (chooseReady s rem) rem := by
  unfold chooseReady
  by_cases hf : rem.filter (depsMet s) = []
  · simp only [hf, if_pos]
    exact ((List.take_sublist 1 _).subperm).trans
      (List.perm_insertionSort prioLE rem).subperm
  · simp only [hf, if_neg]
    exact (List.filter_sublist rem).subperm

/-- Helper: removing a sub-permutation `l'` from `l` (first matching
occurrence each, as Python `list.remove`) splits `l`, up to permutation,
into `l'` and the leftover. -/
theorem perm_append_diff_of_subperm {l' l : List Task} (h : List.Subperm l' l) :
    l.Perm (l' ++ l.diff l') := by
  have hle : (l' : Multiset Task) ≤ (l : Multiset Task) := Multiset.coe_le.mpr h
  have hcoe : ((l' ++ l.diff l' : List Task) : Multiset Task) = (l : Multiset Task) := by
    rw [← Multiset.coe_add, ← Multiset.coe_sub, add_tsub_cancel_of_le hle]
  exact (Multiset.coe_eq_coe.mp hcoe).symm

/-- Helper: when no tasks remain the loop exits immediately. -/
theorem sortLoop_nil (fuel : Nat) (s : List Task) :
    sortLoop fuel s [] = (s, []) := by
  cases fuel <;> rfl

/-- Helper: with fuel at least the number of remaining tasks, the loop
consumes every remaining task and its accumulated output is a
permutation of the accumulator plus the remainder. -/
theorem sortLoop_spec : ∀ (fuel : Nat) (s rem : List Task),
    rem.length ≤ fuel →
    (sortLoop fuel s rem).2 = [] ∧ (sortLoop fuel s rem).1.Perm (s ++ rem) := by
  intro fuel
  induction fuel with
  | zero =>
    intro s rem h
    have hrem : rem = [] := List.eq_nil_of_length_eq_zero (Nat.le_zero.mp h)
    subst hrem
    simp [sortLoop]
  | succ n ih =>
    intro s rem h
    by_cases hrem : rem = []
    · subst hrem
      simp [sortLoop]
    · have hstep : sortLoop (n + 1) s rem =
          sortLoop n (s ++ List.insertionSort prioLE (chooseReady s rem))
            (rem.diff (List.insertionSort prioLE (chooseReady s rem))) := by
        simp [sortLoop, hrem]
      set rs := List.insertionSort prioLE (chooseReady s rem) with hrs
      have hsub : List.Subperm rs rem :=
        (List.perm_insertionSort prioLE (chooseReady s rem)).subperm.trans
          (chooseReady_subperm s rem)
      have hperm : rem.Perm (rs ++ rem.diff rs) := perm_append_diff_of_subperm hsub
      have hne : rs ≠ [] := by
        intro h0
        have hp := List.perm_insertionSort prioLE (chooseReady s rem)
        rw [← hrs, h0] at hp
        exact chooseReady_ne_nil s hrem hp.symm.eq_nil
      have hlt : (rem.diff rs).length < rem.length := by
        have hlen := hperm.length_eq
        rw [List.length_append] at hlen
        have hpos : 0 < rs.length := List.length_pos.mpr hne
        omega
      have hfuel : (rem.diff rs).length ≤ n := by omega
      obtain ⟨h2, h3⟩ := ih (s ++ rs) (rem.diff rs) hfuel
      refine ⟨by rw [hstep]; exact h2, ?_⟩
      rw [hstep]
      refine h3.trans ?_
      rw [List.append_assoc]
      exact List.Perm.append_left s hperm.symm

/-- C1: for every task list — dependency cycles and dangling
`depends_on` references included — the scheduler loop finishes within
`2 × |tasks|` iterations (the fuel is never exhausted: the remainder is
empty) and the schedule it returns is a permutation of the input, so no
task is dropped or duplicated. -/
theorem sort_tasks_terminates_and_preserves (tasks : List Task) :
    (sortLoop (2 * tasks.length) [] tasks).2 = [] ∧
      (sort_tasks_by_dependency tasks).Perm tasks := by
  have h := sortLoop_spec (2 * tasks.length) [] tasks (by omega)
  exact ⟨h.1, by simpa [sort_tasks_by_dependency] using h.2⟩

/-- Helper: when every remaining task is ready, one iteration schedules
all of them, sorted by priority, and the loop then exits. -/
theorem sortLoop_all_ready (fuel : Nat) (s : List Task) {rem : List Task}
    (hne : rem ≠ []) (hready : ∀ t ∈ rem, depsMet s t = true) :
    sortLoop (fuel + 1) s rem = (s ++ List.insertionSort prioLE rem, []) := by
  have hfilter : rem.filter (depsMet s) = rem := List.filter_eq_self.mpr hready
  have hchoose : chooseReady s rem = rem := by
    unfold chooseReady
    rw [hfilter]
    simp [hne]
  have hdiff : rem.diff (List.insertionSort prioLE rem) = [] := by
    have hcoe : ((rem.diff (List.insertionSort prioLE rem) : List Task) :
        Multiset Task) = 0 := by
      rw [← Multiset.coe_sub,
        Multiset.coe_eq_coe.mpr (List.perm_insertionSort prioLE rem), tsub_self]
    exact (Multiset.coe_eq_zero _).mp hcoe
  simp only [sortLoop, hne, if_neg, hchoose, hdiff]
  simp [hne, sortLoop_nil]

/-- C4: for every task list in which no task declares dependencies, the
scheduler returns exactly as many tasks as it was given, each input task
exactly once, ordered by ascending numeric priority. -/
theorem sort_tasks_no_deps_sorted_by_priority (tasks : List Task)
    (h : ∀ t ∈ tasks, t.dependencies = []) :
    (sort_tasks_by_dependency tasks).length = tasks.length ∧
      (sort_tasks_by_dependency tasks).Perm tasks ∧
      List.Sorted prioLE (sort_tasks_by_dependency tasks) := by
  cases htasks : tasks with
  | nil => simp [sort_tasks_by_dependency, sortLoop]
  | cons t ts =>
    have hne : tasks ≠ [] := by rw [htasks]; simp
    have hready : ∀ u ∈ tasks, depsMet [] u = true := by
      intro u hu
      unfold depsMet
      rw [h u hu]
      rfl
    have hfuel : 2 * tasks.length = (2 * tasks.length - 1) + 1 := by
      rw [htasks]
      simp [Nat.mul_succ]
    have hrun : sort_tasks_by_dependency tasks = List.insertionSort prioLE tasks := by
      unfold sort_tasks_by_dependency
      rw [hfuel, sortLoop_all_ready _ [] hne hready]
      simp
    rw [← htasks] at *
    refine ⟨?_, ?_, ?_⟩
    · rw [hrun]
      exact (List.perm_insertionSort prioLE tasks).length_eq
    · rw [hrun]
      exact List.perm_insertionSort prioLE tasks
    · rw [hrun]
      exact List.sorted_insertionSort prioLE tasks

/-- Witness for C4 at a concrete two-task list with no dependencies. -/
theorem sort_tasks_no_deps_sorted_by_priority_witness :
    (∀ t ∈ [Task.mk "a" 2 [], Task.mk "b" 1 []], t.dependencies = []) ∧
      ((sort_tasks_by_dependency [Task.mk "a" 2 [], Task.mk "b" 1 []]).length =
          ([Task.mk "a" 2 [], Task.mk "b" 1 []] : List Task).length ∧
        (sort_tasks_by_dependency [Task.mk "a" 2 [], Task.mk "b" 1 []]).Perm
          [Task.mk "a" 2 [], Task.mk "b" 1 []] ∧
        List.Sorted prioLE
          (sort_tasks_by_dependency [Task.mk "a" 2 [], Task.mk "b" 1 []])) :=
  ⟨by decide, sort_tasks_no_deps_sorted_by_priority _ (by decide)⟩

/-- Helper: the execution loop produces one processed record per task. -/
theorem execute_tasks_length {α : Type} (exec : α → Except String TaskResult) :
    ∀ tasks : List α, (execute_tasks exec tasks).length = tasks.length
  | [] => rfl
  | _ :: ts => congrArg Nat.succ (execute_tasks_length exec ts)

/-- Helper: the i-th processed record is the loop body applied to the
i-th task. -/
theorem execute_tasks_get {α : Type} (exec : α → Except String TaskResult) :
    ∀ (tasks : List α) (i : Nat) (h : i < tasks.length),
      (execute_tasks exec tasks).get
          ⟨i, by rw [execute_tasks_length]; exact h⟩ =
        processOne exec (tasks.get ⟨i, h⟩)
  | _ :: _, 0, _ => rfl
  | _ :: ts, i + 1, h =>
    execute_tasks_get exec ts i (Nat.lt_of_succ_lt_succ h)

/-- C3: the execution loop runs every scheduled task to a terminal state.
The loop output has one record per input task; a task whose executor
call succeeds is marked `completed` with its result, and a task whose
executor call raises is marked `failed` with the error text recorded —
and, because this holds at every index, a failure at one task never
prevents the remaining tasks from being executed. -/
theorem execute_tasks_isolates_failures {α : Type}
    (exec : α → Except String TaskResult) (tasks : List α) (i : Nat)
    (h : i < tasks.length) :
    (execute_tasks exec tasks).length = tasks.length ∧
      (∀ r, exec (tasks.get ⟨i, h⟩) = .ok r →
        (execute_tasks exec tasks).get
            ⟨i, by rw [execute_tasks_length]; exact h⟩ =
          ⟨tasks.get ⟨i, h⟩, .completed, some r, none⟩) ∧
      (∀ e, exec (tasks.get ⟨i, h⟩) = .error e →
        (execute_tasks exec tasks).get
            ⟨i, by rw [execute_tasks_length]; exact h⟩ =
          ⟨tasks.get ⟨i, h⟩, .failed, none, some e⟩) := by
  refine ⟨execute_tasks_length exec tasks, ?_, ?_⟩
  · intro r hr
    rw [execute_tasks_get exec tasks i h]
    unfold processOne
    rw [hr]
  · intro e he
    rw [execute_tasks_get exec tasks i h]
    unfold processOne
    rw [he]

/-- Witness for C3: in the list `[0, 1, 2]` under `sampleExec`, task 1
fails with its error recorded while the loop output still has all three
records. -/
theorem execute_tasks_isolates_failures_witness :
    (1 : Nat) < ([0, 1, 2] : List Nat).length ∧
      ((execute_tasks sampleExec [0, 1, 2]).length =
          ([0, 1, 2] : List Nat).length ∧
        (∀ r, sampleExec (([0, 1, 2] : List Nat).get ⟨1, by decide⟩) = .ok r →
          (execute_tasks sampleExec [0, 1, 2]).get ⟨1, by decide⟩ =
            ⟨([0, 1, 2] : List Nat).get ⟨1, by decide⟩, .completed, some r, none⟩) ∧
        (∀ e, sampleExec (([0, 1, 2] : List Nat).get ⟨1, by decide⟩) = .error e →
          (execute_tasks sampleExec [0, 1, 2]).get ⟨1, by decide⟩ =
            ⟨([0, 1, 2] : List Nat).get ⟨1, by decide⟩, .failed, none, some e⟩)) :=
  ⟨by decide, execute_tasks_isolates_failures sampleExec [0, 1, 2] 1 (by decide)⟩

/-- C10: in the fallback classifier an attached image takes precedence
over every keyword class — for every user message the synthesized
single-task intent has kind `image_analysis` whenever an image is
attached, and the image-generation keywords decide the kind only when no
image is attached. -/
theorem fallback_image_precedes_keywords (msg : List Char) :
    (intentTasks (create_fallback_intent true msg)).map taskTypeOf =
        [some (.str "image_analysis")] ∧
      (intentTasks (create_fallback_intent false msg)).map taskTypeOf =
        [some (.str (if wantsImageGen msg then "image_generation"
          else "text_generation"))] := by
  constructor
  · rfl
  · by_cases h : wantsImageGen msg <;>
      simp [create_fallback_intent, h, intentTasks, pyDictLookup, taskTypeOf]

/-- Counterexample for C2: a classifier response that is a valid JSON
object with `user_intent` and an *empty* `required_tasks` list is
accepted and returned as-is (an intent with zero tasks), not replaced by
the single-task keyword fallback the claim requires for responses
lacking a non-empty task list. -/
theorem analyze_accepts_empty_task_list :
    analyze_user_intent (.parsed emptyTasksIntent) false "hello".data =
        emptyTasksIntent ∧
      (intentTasks emptyTasksIntent).length = 0 ∧
      (intentTasks (create_fallback_intent false "hello".data)).length = 1 := by
  refine ⟨?_, rfl, rfl⟩
  have hv : parse_intent_response_valid emptyTasksIntent = true := rfl
  simp [analyze_user_intent, hv]

/-- C2 (amended: an empty `required_tasks` list is accepted, since the
code never checks non-emptiness): classification never raises, and it
returns the keyword fallback intent exactly when the backend call
failed, the response was not decodable JSON, or the decoded value fails
the field validation (`user_intent`, `required_tasks` present, every
task carrying `task_id`, `task_type`, `description`); a validated
response is returned as parsed.  The fallback itself is a pure literal
with exactly one task, so the fallback path performs no further external
calls. -/
theorem analyze_falls_back_exactly_on_invalid (o : ClassifierOutcome)
    (hasImage : Bool) (msg : List Char) :
    (∀ m, o = .failure m →
      analyze_user_intent o hasImage msg = create_fallback_intent hasImage msg) ∧
      (o = .unparsable →
        analyze_user_intent o hasImage msg = create_fallback_intent hasImage msg) ∧
      (∀ j, o = .parsed j → parse_intent_response_valid j = false →
        analyze_user_intent o hasImage msg = create_fallback_intent hasImage msg) ∧
      (∀ j, o = .parsed j → parse_intent_response_valid j = true →
        analyze_user_intent o hasImage msg = j) ∧
      (intentTasks (create_fallback_intent hasImage msg)).length = 1 := by
  refine ⟨?_, ?_, ?_, ?_, ?_⟩
  · intro m hm
    subst hm
    rfl
  · intro hm
    subst hm
    rfl
  · intro j hj hval
    subst hj
    simp [analyze_user_intent, hval]
  · intro j hj hval
    subst hj
    simp [analyze_user_intent, hval]
  · unfold create_fallback_intent
    by_cases h1 : hasImage
    · simp [h1, intentTasks, pyDictLookup]
    · by_cases h2 : wantsImageGen msg <;>
        simp [h1, h2, intentTasks, pyDictLookup]

/-- Witness for C2 at a concrete backend failure. -/
theorem analyze_falls_back_exactly_on_invalid_witness :
    (ClassifierOutcome.failure "boom" = ClassifierOutcome.failure "boom") ∧
      analyze_user_intent (.failure "boom") false "hi".data =
        create_fallback_intent false "hi".data :=
  ⟨rfl, (analyze_falls_back_exactly_on_invalid (.failure "boom") false
    "hi".data).1 "boom" rfl⟩

/-- C5: when the primary (Gemini) image backend raises an error whose
message matches the feature-unavailable signature, the executor invokes
the DALL-E fallback exactly once on the same task, and returns that
fallback's successful image result. -/
theorem gemini_feature_unavailable_falls_back_once (prompt e rp fn : List Char)
    (upload : List Nat → Except (List Char) Unit)
    (h : matchesFallbackSignature e = true) :
    execute_gemini_image_generation prompt (.error e) upload (.ok (rp, fn)) =
      (TaskResult.image rp fn, 1) := by
  simp [execute_gemini_image_generation, h]

/-- Witness for C5 at a concrete permission-style error message. -/
theorem gemini_feature_unavailable_falls_back_once_witness :
    matchesFallbackSignature "HTTP 403 Forbidden".data = true ∧
      execute_gemini_image_generation "cat".data
          (.error "HTTP 403 Forbidden".data) (fun _ => .ok ())
          (.ok ("a cat".data, "dall-e-3.png".data)) =
        (TaskResult.image "a cat".data "dall-e-3.png".data, 1) :=
  ⟨by decide, gemini_feature_unavailable_falls_back_once _ _ _ _ _ (by decide)⟩

/-- Counterexample for C6: for the non-matching error message
`"database exploded"` the executor still invokes the DALL-E fallback
(count 1) and, the fallback succeeding, returns an image result rather
than a textual error result. -/
theorem gemini_nonmatching_error_counterexample :
    matchesFallbackSignature "database exploded".data = false ∧
      execute_gemini_image_generation "p".data
          (.error "database exploded".data) (fun _ => .ok ())
          (.ok ("rp".data, "fn".data)) =
        (TaskResult.image "rp".data "fn".data, 1) := by
  constructor
  · decide
  · decide

/-- C6 (amended: a failure whose message does **not** match the
feature-unavailable signature also triggers the one-time DALL-E
fallback; a textual error result is surfaced, without raising, only
when that fallback fails too — so the overall run always continues). -/
theorem gemini_nonmatching_error_fallback_behavior (prompt e : List Char)
    (upload : List Nat → Except (List Char) Unit)
    (dalle : Except (List Char) (List Char × List Char))
    (h : matchesFallbackSignature e = false) :
    (execute_gemini_image_generation prompt (.error e) upload dalle).2 = 1 ∧
      (∀ rp fn, dalle = .ok (rp, fn) →
        (execute_gemini_image_generation prompt (.error e) upload dalle).1 =
          TaskResult.image rp fn) ∧
      (∀ de, dalle = .error de →
        (execute_gemini_image_generation prompt (.error e) upload dalle).1 =
          TaskResult.text (dalleFailText e de)) := by
  cases dalle with
  | ok p =>
    obtain ⟨rp, fn⟩ := p
    refine ⟨?_, ?_, ?_⟩
    · simp [execute_gemini_image_generation, h]
    · intro rp2 fn2 hd
      cases hd
      simp [execute_gemini_image_generation, h]
    · intro de hd
      cases hd
  | error de =>
    refine ⟨?_, ?_, ?_⟩
    · simp [execute_gemini_image_generation, h]
    · intro rp2 fn2 hd
      cases hd
    · intro de2 hd
      cases hd
      simp [execute_gemini_image_generation, h]

/-- Witness for C6 at a concrete non-matching error with a failing
fallback: the DALL-E fallback is attempted once and the result is the
combined textual error. -/
theorem gemini_nonmatching_error_fallback_behavior_witness :
    matchesFallbackSignature "disk full".data = false ∧
      (execute_gemini_image_generation "p".data (.error "disk full".data)
          (fun _ => .ok ()) (.error "dalle down".data)).2 = 1 :=
  ⟨by decide, (gemini_nonmatching_error_fallback_behavior "p".data
    "disk full".data (fun _ => .ok ()) (.error "dalle down".data) (by decide)).1⟩

/-- C7: a thread-summary task with zero context messages — no thread at
all, or a thread whose message fetch returned an empty list — produces a
text-kind result carrying the corresponding "nothing to summarize"
message and issues zero generative-AI backend calls. -/
theorem thread_summary_empty_context_no_backend_call
    (threadTs : Option (List Char)) (msgs : List SlackMsg)
    (summarize : List Char → List Char) (h : msgs = []) :
    (execute_thread_summary threadTs msgs summarize).2 = 0 ∧
      ((execute_thread_summary threadTs msgs summarize).1 =
          .text msg_no_thread ∨
        (execute_thread_summary threadTs msgs summarize).1 =
          .text msg_empty_thread) := by
  subst h
  cases threadTs <;> simp [execute_thread_summary]

/-- Witness for C7 inside a thread whose fetched message list is empty. -/
theorem thread_summary_empty_context_no_backend_call_witness :
    ([] : List SlackMsg) = [] ∧
      ((execute_thread_summary (some "1700000000.0".data) []
          (fun _ => "summary".data)).2 = 0 ∧
        ((execute_thread_summary (some "1700000000.0".data) []
            (fun _ => "summary".data)).1 = .text msg_no_thread ∨
          (execute_thread_summary (some "1700000000.0".data) []
            (fun _ => "summary".data)).1 = .text msg_empty_thread)) :=
  ⟨rfl, thread_summary_empty_context_no_backend_call _ _ _ rfl⟩

/-- Counterexample for C8: the input `"가abcd"` has exactly 20% of its
characters in the Hangul block, so the claim ("at least 20%") requires
the preliminary translation call, but the code's strict comparison
(`korean_chars > len * 0.2`) issues no text-generation call before the
image-backend call. -/
theorem korean_ratio_exact_boundary_counterexample :
    imageGenPrelude "가abcd".data = [BackendCall.imageGen] ∧
      (koreanCount "가abcd".data : ℚ) / (("가abcd".data).length : ℚ) = 1 / 5 := by
  constructor
  · decide
  · have h1 : koreanCount "가abcd".data = 1 := by decide
    have h2 : ("가abcd".data).length = 5 := by decide
    rw [h1, h2]
    norm_num

/-- C8 (amended: the translation call is issued exactly when *strictly
more* than 20% of the input's characters are Hangul): for every
non-empty image-generation input, the preliminary text-generation call
precedes the image-backend call if and only if the Hangul fraction
strictly exceeds one fifth, and the call sequence always ends with the
image-backend call. -/
theorem translation_call_iff_ratio_strictly_above_one_fifth (s : List Char)
    (h : s ≠ []) :
    (BackendCall.textGen ∈ imageGenPrelude s ↔
        (koreanCount s : ℚ) / (s.length : ℚ) > 1 / 5) ∧
      (imageGenPrelude s).getLast? = some BackendCall.imageGen := by
  have hlen : 0 < (s.length : ℚ) := by
    have := List.length_pos.mpr h
    exact_mod_cast this
  constructor
  · have hmem : BackendCall.textGen ∈ imageGenPrelude s ↔ contains_korean s = true := by
      unfold imageGenPrelude
      by_cases hc : contains_korean s <;> simp [hc]
    rw [hmem]
    unfold contains_korean
    rw [if_neg h]
    rw [decide_eq_true_eq]
    rw [gt_iff_lt, gt_iff_lt, div_lt_div_iff₀ (by norm_num : (0 : ℚ) < 5) hlen]
    constructor
    · intro hk
      have hq : (s.length : ℚ) < ((5 * koreanCount s : ℕ) : ℚ) := by
        exact_mod_cast hk
      push_cast at hq
      linarith
    · intro hk
      have hq : (s.length : ℚ) < ((5 * koreanCount s : ℕ) : ℚ) := by
        push_cast
        linarith
      exact_mod_cast hq
  · unfold imageGenPrelude
    by_cases hc : contains_korean s <;> simp [hc]

/-- Witness for C8 at the all-Hangul input `"가나다"`. -/
theorem translation_call_iff_ratio_strictly_above_one_fifth_witness :
    ("가나다".data ≠ []) ∧
      ((BackendCall.textGen ∈ imageGenPrelude "가나다".data ↔
          (koreanCount "가나다".data : ℚ) / (("가나다".data).length : ℚ) > 1 / 5) ∧
        (imageGenPrelude "가나다".data).getLast? = some BackendCall.imageGen) :=
  ⟨by decide, translation_call_iff_ratio_strictly_above_one_fifth _ (by decide)⟩

/-- Helper: the number of in-progress updates issued by the streaming
loop is determined by the chunk lengths alone, via `flushFlags`. -/
theorem foldl_stream_updates_length (chatUpd : List Char → List Char) :
    ∀ (chunks : List (List Char)) (st : StreamState),
      ((chunks.foldl (streamStep chatUpd) st).updates).length =
        st.updates.length +
          (flushFlags (chunks.map List.length) st.counter st.bufferSize).count
            true := by
  intro chunks
  induction chunks with
  | nil =>
    intro st
    simp [flushFlags]
  | cons c cs ih =>
    intro st
    rw [List.foldl_cons, ih (streamStep chatUpd st c)]
    by_cases hcond : st.bufferSize + c.length ≥ update_threshold ∨
        (st.counter > 0 ∧ st.counter % 24 = 0)
    · have hf : (decide (st.bufferSize + c.length ≥ update_threshold) ||
          (decide (st.counter > 0) && decide (st.counter % 24 = 0))) = true := by
        simpa [Bool.or_eq_true, Bool.and_eq_true, decide_eq_true_eq] using hcond
      simp [streamStep, flushFlags, hcond, hf, List.count_cons]
      omega
    · have hf : (decide (st.bufferSize + c.length ≥ update_threshold) ||
          (decide (st.counter > 0) && decide (st.counter % 24 = 0))) = false := by
        rw [Bool.eq_false_iff]
        intro hb
        exact hcond (by
          simpa [Bool.or_eq_true, Bool.and_eq_true, decide_eq_true_eq] using hb)
      simp [streamStep, flushFlags, hcond, hf, List.count_cons]

/-- Helper: with the identity `chat_update` the accumulated message after
the loop is the concatenation of all stream chunks. -/
theorem foldl_stream_message_id :
    ∀ (chunks : List (List Char)) (st : StreamState),
      (chunks.foldl (streamStep id) st).message = st.message ++ chunks.flatten := by
  intro chunks
  induction chunks with
  | nil =>
    intro st
    simp
  | cons c cs ih =>
    intro st
    rw [List.foldl_cons, ih (streamStep id st c)]
    have hmsg : (streamStep id st c).message = st.message ++ c := by
      unfold streamStep
      by_cases hcond : st.bufferSize + c.length ≥ update_threshold ∨
          (st.counter > 0 ∧ st.counter % 24 = 0) <;> simp [hcond]
    rw [hmsg]
    simp [List.append_assoc]

/-- C9 (amended: an in-progress update is issued when the accumulated
unflushed content has reached the 800-character threshold **or** the
chunk counter is a positive multiple of 24 — so the decision depends on
the chunk count as well as the character count): the number of updates
issued equals the number of flush points that `flushFlags` derives from
the chunk lengths alone under that rule, plus the one final update,
which carries the full accumulated content. -/
theorem stream_updates_count_and_final_full_content
    (chatUpd : List Char → List Char) (chunks : List (List Char)) :
    (reply_text_stream chatUpd chunks).updates.length =
        (flushFlags (chunks.map List.length) 0 0).count true + 1 ∧
      (reply_text_stream id chunks).updates.getLast? = some chunks.flatten := by
  constructor
  · have h := foldl_stream_updates_length chatUpd chunks ⟨0, [], 0, []⟩
    simp only [reply_text_stream, List.length_append]
    rw [h]
    simp
  · have h := foldl_stream_message_id chunks ⟨0, [], 0, []⟩
    simp only [reply_text_stream, List.getLast?_append_cons]
    rw [h]
    simp

set_option maxRecDepth 8192 in
/-- Counterexample for C9: a stream of 25 one-character chunks never
accumulates 800 unflushed characters (the whole stream is 25 characters
long), yet the loop issues an in-progress update at the 25th chunk
because the chunk counter reached 24 — the update list has length 2 (one
in-progress update plus the final one) where the claim predicts exactly
1 (the final update alone). -/
theorem stream_flush_on_chunk_count_counterexample :
    (reply_text_stream id (List.replicate 25 ['a'])).updates.length = 2 ∧
      ((List.replicate 25 ['a']).map List.length).sum = 25 ∧
      25 < update_threshold := by
  refine ⟨by decide, by decide, by decide⟩

end Workflow
